import Mathlib

/-!
Shallow embedding of `ShimOptions::ShimOptions(const ConfigurationSource&)`
from `src/Servers/IIS/AspNetCoreModuleV2/AspNetCore/ShimOptions.cpp`.

The constructor resolves a validated options bundle from a configuration
section plus ambient environment variables.  External collaborators
(StringHelpers, ConfigurationSource, Environment — their code is not in the
repository snapshot) are modelled from the spec's interface descriptions
(§6 of the spec); the control flow and field assignments are translated
directly from `ShimOptions.cpp`.
-/

namespace AspNetCore

/-- Modelled from the spec: `equals_ignore_case` from `StringHelpers.h`
(not in the snapshot); the spec describes every comparison made with it as a
case-insensitive string match.  Lowercasing is done character by character
over the string's contents. -/
def equals_ignore_case (a b : String) : Bool :=
  a.data.map Char.toLower == b.data.map Char.toLower

/-- Modelled from the spec: `find_element` from `StringHelpers.h`
(not in the snapshot); it looks a key up in a key-value-pair collection and
returns an optional value. -/
def find_element (pairs : List (String × String)) (key : String) : Option String :=
  (pairs.find? (fun p => p.1 == key)).map (fun p => p.2)

/-- `std::map<wstring,wstring>::operator[]`: returns the entry for `key`,
or a default-constructed (empty) string when absent.  The auto-insert side
effect of `operator[]` is unobservable here (the resolver never reads the
map again — spec §4.1 side-effects note), so a pure lookup-with-default
models it. -/
def mapIndex (m : List (String × String)) (key : String) : String :=
  ((m.find? (fun p => p.1 == key)).map (fun p => p.2)).getD ""

/-- The hosting-model enum of `ShimOptions.h` (the header is not in the
snapshot; the three constants are named in `ShimOptions.cpp` itself). -/
inductive APP_HOSTING_MODEL where
  | HOSTING_UNKNOWN
  | HOSTING_IN_PROCESS
  | HOSTING_OUT_PROCESS
deriving DecidableEq, Repr

/-- Modelled from the spec: the valid spelling `"outofprocess"` for the
hosting-model value (`CS_ASPNETCORE_HOSTING_MODEL_OUTOFPROCESS` in the
missing `ShimOptions.h`); the spec names both valid spellings. -/
def CS_ASPNETCORE_HOSTING_MODEL_OUTOFPROCESS : String := "outofprocess"

/-- Modelled from the spec: the valid spelling `"inprocess"` for the
hosting-model value (`CS_ASPNETCORE_HOSTING_MODEL_INPROCESS` in the
missing `ShimOptions.h`). -/
def CS_ASPNETCORE_HOSTING_MODEL_INPROCESS : String := "inprocess"

/-- `CS_ASPNETCORE_HANDLER_VERSION`, defined at the top of
`ShimOptions.cpp`: the literal key looked up in the handler settings. -/
def CS_ASPNETCORE_HANDLER_VERSION : String := "handlerVersion"

/-- Modelled from the spec: the fixed built-in default command-line
argument string (`CS_ASPNETCORE_PROCESS_ARGUMENTS_DEFAULT` in the missing
`ShimOptions.h`).  No claim depends on its concrete value, only on the
resolved field equalling it when the key is absent. -/
def CS_ASPNETCORE_PROCESS_ARGUMENTS_DEFAULT : String := ""

/-- `ConfigurationLoadException` (the spec's `ConfigurationError`): a single
error kind carrying a human-readable message. -/
structure ConfigurationLoadException where
  message : String
deriving DecidableEq, Repr

/-- Modelled from the spec: the required configuration section, exposing
the scalar/collection lookups of spec §6.  `GetString` is an optional
lookup (`none` = key absent); the `GetRequired…` getters fail on `none`.
`GetRequiredBool` failing on an unparseable value is folded into absence
(`Option Bool`), since only presence/absence is observable to the claims.
The environment-variable map backs `GetMap`. -/
structure ConfigurationSource where
  hostingModel : Option String
  handlerSettings : List (String × String)
  processPath : Option String
  arguments : Option String
  stdoutLogEnabled : Option Bool
  stdoutLogFile : Option String
  disableStartupErrorPage : Option Bool
  environmentVariables : List (String × String)
deriving DecidableEq, Repr

/-- Modelled from the spec: the Environment Accessor — an OS-environment
snapshot with `GetEnvironmentVariableValue(name) -> optional<string>`. -/
structure OSEnvironment where
  vars : List (String × String)
deriving DecidableEq, Repr

/-- `Environment::GetEnvironmentVariableValue` over the snapshot. -/
def OSEnvironment.GetEnvironmentVariableValue (e : OSEnvironment) (name : String) : Option String :=
  (e.vars.find? (fun p => p.1 == name)).map (fun p => p.2)

/-- The resolved options value: the member fields assigned by the
constructor in `ShimOptions.cpp`. -/
structure ShimOptions where
  m_hostingModel : APP_HOSTING_MODEL
  m_strHandlerVersion : String
  m_strProcessPath : String
  m_strArguments : String
  m_fStdoutLogEnabled : Bool
  m_struStdoutLogFile : String
  m_fDisableStartupPage : Bool
  m_fShowDetailedErrors : Bool
deriving DecidableEq, Repr

/-- The error message thrown for an unknown hosting model
(`ShimOptions.cpp` lines 29–31, with `format`'s `%s` spliced). -/
def unknownHostingModelMessage (hostingModel : String) : String :=
  "Unknown hosting model '" ++ hostingModel ++
    "'. Please specify either hostingModel=\"inprocess\" or hostingModel=\"outofprocess\" in the web.config file."

/-- Modelled from the spec: the `ConfigurationError` raised by a
`GetRequired…` getter when the key is missing; its message identifies the
offending key (spec §7).  The exact text is not in the snapshot. -/
def missingKeyError (key : String) : ConfigurationLoadException :=
  ⟨"Missing required configuration value: " ++ key⟩

instance : DecidableEq (Except ConfigurationLoadException ShimOptions) := fun a b =>
  match a, b with
  | .ok x, .ok y => decidable_of_iff (x = y) (by simp)
  | .error x, .error y => decidable_of_iff (x = y) (by simp)
  | .ok _, .error _ => isFalse (by simp)
  | .error _, .ok _ => isFalse (by simp)

/-- The body of `ShimOptions::ShimOptions` (`ShimOptions.cpp` lines
12–68), translated statement by statement.  A thrown
`ConfigurationLoadException` becomes `Except.error`; a completed
constructor becomes `Except.ok` with every member field assigned. -/
def ShimOptions.construct (cs : ConfigurationSource) (env : OSEnvironment) :
    Except ConfigurationLoadException ShimOptions :=
  let hostingModel := cs.hostingModel.getD ""
  let modelResult : Except ConfigurationLoadException APP_HOSTING_MODEL :=
    if hostingModel.isEmpty ||
        equals_ignore_case hostingModel CS_ASPNETCORE_HOSTING_MODEL_OUTOFPROCESS then
      .ok .HOSTING_OUT_PROCESS
    else if equals_ignore_case hostingModel CS_ASPNETCORE_HOSTING_MODEL_INPROCESS then
      .ok .HOSTING_IN_PROCESS
    else
      .error ⟨unknownHostingModelMessage hostingModel⟩
  match modelResult with
  | .error e => .error e
  | .ok m_hostingModel =>
    let m_strHandlerVersion :=
      if m_hostingModel = .HOSTING_OUT_PROCESS then
        (find_element cs.handlerSettings CS_ASPNETCORE_HANDLER_VERSION).getD ""
      else ""
    match cs.processPath with
    | none => .error (missingKeyError "processPath")
    | some m_strProcessPath =>
      let m_strArguments := cs.arguments.getD CS_ASPNETCORE_PROCESS_ARGUMENTS_DEFAULT
      match cs.stdoutLogEnabled with
      | none => .error (missingKeyError "stdoutLogEnabled")
      | some m_fStdoutLogEnabled =>
        match cs.stdoutLogFile with
        | none => .error (missingKeyError "stdoutLogFile")
        | some m_struStdoutLogFile =>
          match cs.disableStartupErrorPage with
          | none => .error (missingKeyError "disableStartupErrorPage")
          | some m_fDisableStartupPage =>
            let detailedErrors :=
              (env.GetEnvironmentVariableValue "ASPNETCORE_DETAILEDERRORS").getD ""
            let aspnetCoreEnvironment :=
              (env.GetEnvironmentVariableValue "ASPNETCORE_ENVIRONMENT").getD ""
            let dotnetEnvironment :=
              (env.GetEnvironmentVariableValue "DOTNET_ENVIRONMENT").getD ""
            let detailedErrorsEnabled :=
              equals_ignore_case "1" detailedErrors || equals_ignore_case "true" detailedErrors
            let aspnetCoreEnvironmentEnabled :=
              equals_ignore_case "Development" aspnetCoreEnvironment
            let dotnetEnvironmentEnabled :=
              equals_ignore_case "Development" dotnetEnvironment
            let environmentVariables := cs.environmentVariables
            let detailedErrorsFromWebConfig :=
              mapIndex environmentVariables "ASPNETCORE_DETAILEDERRORS"
            let aspnetCoreEnvironmentFromWebConfig :=
              mapIndex environmentVariables "ASPNETCORE_ENVIRONMENT"
            let dotnetEnvironmentFromWebConfig :=
              mapIndex environmentVariables "DOTNET_ENVIRONMENT"
            let detailedErrorsEnabled :=
              detailedErrorsEnabled ||
                (equals_ignore_case "1" detailedErrorsFromWebConfig ||
                  equals_ignore_case "true" detailedErrorsFromWebConfig)
            let aspnetCoreEnvironmentEnabled :=
              aspnetCoreEnvironmentEnabled ||
                equals_ignore_case "Development" aspnetCoreEnvironmentFromWebConfig
            let dotnetEnvironmentEnabled :=
              dotnetEnvironmentEnabled ||
                equals_ignore_case "Development" dotnetEnvironmentFromWebConfig
            let m_fShowDetailedErrors :=
              detailedErrorsEnabled || aspnetCoreEnvironmentEnabled || dotnetEnvironmentEnabled
            .ok {
              m_hostingModel := m_hostingModel
              m_strHandlerVersion := m_strHandlerVersion
              m_strProcessPath := m_strProcessPath
              m_strArguments := m_strArguments
              m_fStdoutLogEnabled := m_fStdoutLogEnabled
              m_struStdoutLogFile := m_struStdoutLogFile
              m_fDisableStartupPage := m_fDisableStartupPage
              m_fShowDetailedErrors := m_fShowDetailedErrors }

/-- `pat` occurs contiguously inside `s`. -/
def ContainsSubstring (s pat : String) : Prop :=
  ∃ l r, s = l ++ pat ++ r

/-- The hosting-model string selects a valid model: empty, or matching one
of the two valid spellings case-insensitively. -/
def HostingModelValid (cs : ConfigurationSource) : Prop :=
  cs.hostingModel.getD "" = "" ∨
    equals_ignore_case (cs.hostingModel.getD "") CS_ASPNETCORE_HOSTING_MODEL_OUTOFPROCESS = true ∨
    equals_ignore_case (cs.hostingModel.getD "") CS_ASPNETCORE_HOSTING_MODEL_INPROCESS = true

/-- The detailed-errors derivation (constructor Step 5, `ShimOptions.cpp`
lines 46–67) as a standalone value: the OR of the three signals, each the OR
of its OS-environment form and its configuration-declared form. -/
def showDetailedErrorsOf (cs : ConfigurationSource) (env : OSEnvironment) : Bool :=
  equals_ignore_case "1" ((env.GetEnvironmentVariableValue "ASPNETCORE_DETAILEDERRORS").getD "") ||
      equals_ignore_case "true" ((env.GetEnvironmentVariableValue "ASPNETCORE_DETAILEDERRORS").getD "") ||
      (equals_ignore_case "1" (mapIndex cs.environmentVariables "ASPNETCORE_DETAILEDERRORS") ||
        equals_ignore_case "true" (mapIndex cs.environmentVariables "ASPNETCORE_DETAILEDERRORS")) ||
    (equals_ignore_case "Development" ((env.GetEnvironmentVariableValue "ASPNETCORE_ENVIRONMENT").getD "") ||
      equals_ignore_case "Development" (mapIndex cs.environmentVariables "ASPNETCORE_ENVIRONMENT")) ||
    (equals_ignore_case "Development" ((env.GetEnvironmentVariableValue "DOTNET_ENVIRONMENT").getD "") ||
      equals_ignore_case "Development" (mapIndex cs.environmentVariables "DOTNET_ENVIRONMENT"))

/-- `equals_ignore_case` unfolded to a propositional equality of
lowercased character lists. -/
theorem equals_ignore_case_eq_true {a b : String} :
    equals_ignore_case a b = true ↔ a.data.map Char.toLower = b.data.map Char.toLower := by
  simp [equals_ignore_case]

/-- A string matching `"outofprocess"` case-insensitively cannot also match
`"inprocess"`. -/
theorem eic_out_not_in {v : String}
    (h1 : equals_ignore_case v CS_ASPNETCORE_HOSTING_MODEL_OUTOFPROCESS = true) :
    equals_ignore_case v CS_ASPNETCORE_HOSTING_MODEL_INPROCESS = false := by
  rw [equals_ignore_case_eq_true] at h1
  rw [← Bool.not_eq_true, equals_ignore_case_eq_true, h1]
  decide

/-- The empty string does not match `"inprocess"`. -/
theorem eic_empty_not_in :
    equals_ignore_case "" CS_ASPNETCORE_HOSTING_MODEL_INPROCESS = false := by decide

/-- Characterization of successful construction: exactly when the four
required keys are present and the hosting-model string selects a valid
model; the resulting field values are spelled out per branch. -/
theorem construct_ok_iff (cs : ConfigurationSource) (env : OSEnvironment) (o : ShimOptions) :
    ShimOptions.construct cs env = .ok o ↔
      ∃ p b f d, cs.processPath = some p ∧ cs.stdoutLogEnabled = some b ∧
        cs.stdoutLogFile = some f ∧ cs.disableStartupErrorPage = some d ∧
        ((((cs.hostingModel.getD "").isEmpty ||
              equals_ignore_case (cs.hostingModel.getD "")
                CS_ASPNETCORE_HOSTING_MODEL_OUTOFPROCESS) = true ∧
            o = ⟨.HOSTING_OUT_PROCESS,
                 (find_element cs.handlerSettings CS_ASPNETCORE_HANDLER_VERSION).getD "",
                 p, cs.arguments.getD CS_ASPNETCORE_PROCESS_ARGUMENTS_DEFAULT, b, f, d,
                 showDetailedErrorsOf cs env⟩) ∨
          (((cs.hostingModel.getD "").isEmpty ||
              equals_ignore_case (cs.hostingModel.getD "")
                CS_ASPNETCORE_HOSTING_MODEL_OUTOFPROCESS) = false ∧
            equals_ignore_case (cs.hostingModel.getD "")
              CS_ASPNETCORE_HOSTING_MODEL_INPROCESS = true ∧
            o = ⟨.HOSTING_IN_PROCESS, "",
                 p, cs.arguments.getD CS_ASPNETCORE_PROCESS_ARGUMENTS_DEFAULT, b, f, d,
                 showDetailedErrorsOf cs env⟩)) := by
  constructor
  · intro h
    simp only [ShimOptions.construct] at h
    split at h
    · exact Except.noConfusion h
    · rename_i m hm
      split at hm
      · rename_i hcond
        injection hm with hm
        subst hm
        repeat' split at h
        all_goals try (simp only [reduceCtorEq] at h)
        all_goals simp only [Except.ok.injEq] at h
        all_goals subst h
        · exact ⟨_, _, _, _, by assumption, by assumption, by assumption, by assumption,
            Or.inl ⟨hcond, rfl⟩⟩
        · rename_i hfalse
          exact absurd rfl hfalse
      · split at hm
        · rename_i hcond1 hcond2
          injection hm with hm
          subst hm
          repeat' split at h
          all_goals try (simp only [reduceCtorEq] at h)
          all_goals simp only [Except.ok.injEq] at h
          all_goals subst h
          · rename_i hbad
            exact APP_HOSTING_MODEL.noConfusion hbad
          · exact ⟨_, _, _, _, by assumption, by assumption, by assumption, by assumption,
              Or.inr ⟨Bool.eq_false_iff.mpr hcond1, hcond2, rfl⟩⟩
        · exact Except.noConfusion hm
  · rintro ⟨p, b, f, d, hp, hb, hf, hd, (⟨hc, ho⟩ | ⟨hc1, hc2, ho⟩)⟩ <;> subst ho
    · simp [ShimOptions.construct, hp, hb, hf, hd, hc, showDetailedErrorsOf]
    · simp [ShimOptions.construct, hp, hb, hf, hd, hc1, hc2, showDetailedErrorsOf]

/-- A non-empty string has `isEmpty = false`. -/
theorem isEmpty_false_of_ne {s : String} (h : s ≠ "") : s.isEmpty = false := by
  rw [Bool.eq_false_iff]
  intro hc
  exact h ((String.isEmpty_iff s).mp hc)

/-- With an invalid hosting-model string the constructor throws the
unknown-hosting-model error. -/
theorem construct_unknown_model (cs : ConfigurationSource) (env : OSEnvironment)
    (hne : cs.hostingModel.getD "" ≠ "")
    (hout : equals_ignore_case (cs.hostingModel.getD "")
      CS_ASPNETCORE_HOSTING_MODEL_OUTOFPROCESS = false)
    (hin : equals_ignore_case (cs.hostingModel.getD "")
      CS_ASPNETCORE_HOSTING_MODEL_INPROCESS = false) :
    ShimOptions.construct cs env =
      .error ⟨unknownHostingModelMessage (cs.hostingModel.getD "")⟩ := by
  simp [ShimOptions.construct, isEmpty_false_of_ne hne, hout, hin]

/-- A valid hosting model that fails the out-of-process test matches
`"inprocess"`. -/
theorem valid_in_of_not_out {cs : ConfigurationSource} (hvalid : HostingModelValid cs)
    (hc : ((cs.hostingModel.getD "").isEmpty ||
      equals_ignore_case (cs.hostingModel.getD "")
        CS_ASPNETCORE_HOSTING_MODEL_OUTOFPROCESS) = false) :
    equals_ignore_case (cs.hostingModel.getD "")
      CS_ASPNETCORE_HOSTING_MODEL_INPROCESS = true := by
  rcases Bool.or_eq_false_iff.mp hc with ⟨h1, h2⟩
  rcases hvalid with hv | hout | hin
  · rw [hv] at h1
    exact absurd h1 (by decide)
  · rw [hout] at h2
    exact Bool.noConfusion h2
  · exact hin

/-- On success the detailed-errors field is the Step-5 derivation. -/
theorem construct_ok_show {cs : ConfigurationSource} {env : OSEnvironment} {o : ShimOptions}
    (h : ShimOptions.construct cs env = .ok o) :
    o.m_fShowDetailedErrors = showDetailedErrorsOf cs env := by
  rcases (construct_ok_iff cs env o).mp h with ⟨p, b, f, d, _, _, _, _, (⟨_, ho⟩ | ⟨_, _, ho⟩)⟩ <;>
    subst ho <;> rfl

/-- C1: for every configuration source and environment on which
construction succeeds, the resolved hosting model is `HOSTING_OUT_PROCESS`
exactly when the hosting-model string is empty or matches `"outofprocess"`
case-insensitively, and `HOSTING_IN_PROCESS` exactly when it matches
`"inprocess"` case-insensitively. -/
theorem shim_C1_hosting_model_resolution (cs : ConfigurationSource) (env : OSEnvironment)
    (o : ShimOptions) (h : ShimOptions.construct cs env = .ok o) :
    (o.m_hostingModel = .HOSTING_OUT_PROCESS ↔
      (cs.hostingModel.getD "" = "" ∨
        equals_ignore_case (cs.hostingModel.getD "")
          CS_ASPNETCORE_HOSTING_MODEL_OUTOFPROCESS = true)) ∧
    (o.m_hostingModel = .HOSTING_IN_PROCESS ↔
      equals_ignore_case (cs.hostingModel.getD "")
        CS_ASPNETCORE_HOSTING_MODEL_INPROCESS = true) := by
  rcases (construct_ok_iff cs env o).mp h with
    ⟨p, b, f, d, hp, hb, hf, hd, (⟨hc, ho⟩ | ⟨hc1, hc2, ho⟩)⟩ <;> subst ho
  · rw [Bool.or_eq_true, String.isEmpty_iff] at hc
    refine ⟨iff_of_true rfl hc, iff_of_false (fun hbad => APP_HOSTING_MODEL.noConfusion hbad) ?_⟩
    intro hin
    rcases hc with hv | hout
    · rw [hv] at hin
      exact absurd hin (by decide)
    · rw [eic_out_not_in hout] at hin
      exact Bool.noConfusion hin
  · refine ⟨iff_of_false (fun hbad => APP_HOSTING_MODEL.noConfusion hbad) ?_, iff_of_true rfl hc2⟩
    rcases Bool.or_eq_false_iff.mp hc1 with ⟨h1, h2⟩
    rintro (hv | hout)
    · rw [hv] at h1
      exact absurd h1 (by decide)
    · rw [hout] at h2
      exact Bool.noConfusion h2

/-- Witness for C1 at a concrete in-process configuration. -/
theorem shim_C1_witness :
    ShimOptions.construct
        ⟨some "InProcess", [], some "dotnet", none, some true, some "log.txt", some false, []⟩
        (⟨[]⟩ : OSEnvironment) =
      .ok ⟨.HOSTING_IN_PROCESS, "", "dotnet", "", true, "log.txt", false, false⟩ ∧
    (((⟨.HOSTING_IN_PROCESS, "", "dotnet", "", true, "log.txt", false, false⟩ :
          ShimOptions).m_hostingModel = .HOSTING_OUT_PROCESS ↔
        ((⟨some "InProcess", [], some "dotnet", none, some true, some "log.txt", some false, []⟩ :
            ConfigurationSource).hostingModel.getD "" = "" ∨
          equals_ignore_case
            ((⟨some "InProcess", [], some "dotnet", none, some true, some "log.txt", some false, []⟩ :
                ConfigurationSource).hostingModel.getD "")
            CS_ASPNETCORE_HOSTING_MODEL_OUTOFPROCESS = true)) ∧
      ((⟨.HOSTING_IN_PROCESS, "", "dotnet", "", true, "log.txt", false, false⟩ :
          ShimOptions).m_hostingModel = .HOSTING_IN_PROCESS ↔
        equals_ignore_case
          ((⟨some "InProcess", [], some "dotnet", none, some true, some "log.txt", some false, []⟩ :
              ConfigurationSource).hostingModel.getD "")
          CS_ASPNETCORE_HOSTING_MODEL_INPROCESS = true)) :=
  ⟨by decide,
    shim_C1_hosting_model_resolution
      ⟨some "InProcess", [], some "dotnet", none, some true, some "log.txt", some false, []⟩
      ⟨[]⟩ ⟨.HOSTING_IN_PROCESS, "", "dotnet", "", true, "log.txt", false, false⟩ (by decide)⟩

/-- C2: a non-empty hosting-model string matching neither valid spelling
makes construction fail with an error whose message contains the offending
value and both valid spellings. -/
theorem shim_C2_unknown_model_error (cs : ConfigurationSource) (env : OSEnvironment)
    (hne : cs.hostingModel.getD "" ≠ "")
    (hout : equals_ignore_case (cs.hostingModel.getD "")
      CS_ASPNETCORE_HOSTING_MODEL_OUTOFPROCESS = false)
    (hin : equals_ignore_case (cs.hostingModel.getD "")
      CS_ASPNETCORE_HOSTING_MODEL_INPROCESS = false) :
    ∃ e, ShimOptions.construct cs env = .error e ∧
      ContainsSubstring e.message (cs.hostingModel.getD "") ∧
      ContainsSubstring e.message CS_ASPNETCORE_HOSTING_MODEL_INPROCESS ∧
      ContainsSubstring e.message CS_ASPNETCORE_HOSTING_MODEL_OUTOFPROCESS := by
  refine ⟨_, construct_unknown_model cs env hne hout hin, ?_, ?_, ?_⟩
  · exact ⟨"Unknown hosting model '",
      "'. Please specify either hostingModel=\"inprocess\" or hostingModel=\"outofprocess\" in the web.config file.",
      rfl⟩
  · refine ⟨"Unknown hosting model '" ++ cs.hostingModel.getD "" ++
        "'. Please specify either hostingModel=\"",
      "\" or hostingModel=\"outofprocess\" in the web.config file.", ?_⟩
    show unknownHostingModelMessage (cs.hostingModel.getD "") = _
    rw [unknownHostingModelMessage, CS_ASPNETCORE_HOSTING_MODEL_INPROCESS,
      String.append_assoc, String.append_assoc, String.append_assoc, String.append_assoc]
    congr 1
  · refine ⟨"Unknown hosting model '" ++ cs.hostingModel.getD "" ++
        "'. Please specify either hostingModel=\"inprocess\" or hostingModel=\"",
      "\" in the web.config file.", ?_⟩
    show unknownHostingModelMessage (cs.hostingModel.getD "") = _
    rw [unknownHostingModelMessage, CS_ASPNETCORE_HOSTING_MODEL_OUTOFPROCESS,
      String.append_assoc, String.append_assoc, String.append_assoc, String.append_assoc]
    congr 1

/-- Witness for C2 at the hosting-model string `"foo"`. -/
theorem shim_C2_witness :
    ((⟨some "foo", [], none, none, none, none, none, []⟩ :
        ConfigurationSource).hostingModel.getD "" ≠ "" ∧
      equals_ignore_case
        ((⟨some "foo", [], none, none, none, none, none, []⟩ :
            ConfigurationSource).hostingModel.getD "")
        CS_ASPNETCORE_HOSTING_MODEL_OUTOFPROCESS = false ∧
      equals_ignore_case
        ((⟨some "foo", [], none, none, none, none, none, []⟩ :
            ConfigurationSource).hostingModel.getD "")
        CS_ASPNETCORE_HOSTING_MODEL_INPROCESS = false) ∧
    ∃ e, ShimOptions.construct
        (⟨some "foo", [], none, none, none, none, none, []⟩ : ConfigurationSource)
        (⟨[]⟩ : OSEnvironment) =
        .error e ∧
      ContainsSubstring e.message
        ((⟨some "foo", [], none, none, none, none, none, []⟩ :
            ConfigurationSource).hostingModel.getD "") ∧
      ContainsSubstring e.message CS_ASPNETCORE_HOSTING_MODEL_INPROCESS ∧
      ContainsSubstring e.message CS_ASPNETCORE_HOSTING_MODEL_OUTOFPROCESS :=
  ⟨⟨by decide, by decide, by decide⟩,
    shim_C2_unknown_model_error ⟨some "foo", [], none, none, none, none, none, []⟩ ⟨[]⟩
      (by decide) (by decide) (by decide)⟩

/-- C3: on success, `showDetailedErrors` is true if and only if at least
one of the six checks matches — the OS variable or the
configuration-declared map entry `ASPNETCORE_DETAILEDERRORS` equals `"1"`
or `"true"` case-insensitively, or either form of `ASPNETCORE_ENVIRONMENT`
or `DOTNET_ENVIRONMENT` equals `"Development"` case-insensitively. -/
theorem shim_C3_detailed_errors_iff (cs : ConfigurationSource) (env : OSEnvironment)
    (o : ShimOptions) (h : ShimOptions.construct cs env = .ok o) :
    o.m_fShowDetailedErrors = true ↔
      ((equals_ignore_case "1"
            ((env.GetEnvironmentVariableValue "ASPNETCORE_DETAILEDERRORS").getD "") = true ∨
          equals_ignore_case "true"
            ((env.GetEnvironmentVariableValue "ASPNETCORE_DETAILEDERRORS").getD "") = true) ∨
        (equals_ignore_case "1"
            (mapIndex cs.environmentVariables "ASPNETCORE_DETAILEDERRORS") = true ∨
          equals_ignore_case "true"
            (mapIndex cs.environmentVariables "ASPNETCORE_DETAILEDERRORS") = true) ∨
        equals_ignore_case "Development"
          ((env.GetEnvironmentVariableValue "ASPNETCORE_ENVIRONMENT").getD "") = true ∨
        equals_ignore_case "Development"
          (mapIndex cs.environmentVariables "ASPNETCORE_ENVIRONMENT") = true ∨
        equals_ignore_case "Development"
          ((env.GetEnvironmentVariableValue "DOTNET_ENVIRONMENT").getD "") = true ∨
        equals_ignore_case "Development"
          (mapIndex cs.environmentVariables "DOTNET_ENVIRONMENT") = true) := by
  rw [construct_ok_show h, showDetailedErrorsOf]
  simp only [Bool.or_eq_true]
  tauto

/-- Witness for C3: the configuration-declared map sets
`ASPNETCORE_ENVIRONMENT=Development` while the OS environment is empty. -/
theorem shim_C3_witness :
    ShimOptions.construct
        ⟨some "inprocess", [], some "dotnet", none, some true, some "log.txt", some false,
          [("ASPNETCORE_ENVIRONMENT", "Development")]⟩
        (⟨[]⟩ : OSEnvironment) =
      .ok ⟨.HOSTING_IN_PROCESS, "", "dotnet", "", true, "log.txt", false, true⟩ ∧
    ((⟨.HOSTING_IN_PROCESS, "", "dotnet", "", true, "log.txt", false, true⟩ :
        ShimOptions).m_fShowDetailedErrors = true ↔
      ((equals_ignore_case "1"
            (((⟨[]⟩ : OSEnvironment).GetEnvironmentVariableValue
              "ASPNETCORE_DETAILEDERRORS").getD "") = true ∨
          equals_ignore_case "true"
            (((⟨[]⟩ : OSEnvironment).GetEnvironmentVariableValue
              "ASPNETCORE_DETAILEDERRORS").getD "") = true) ∨
        (equals_ignore_case "1"
            (mapIndex [("ASPNETCORE_ENVIRONMENT", "Development")]
              "ASPNETCORE_DETAILEDERRORS") = true ∨
          equals_ignore_case "true"
            (mapIndex [("ASPNETCORE_ENVIRONMENT", "Development")]
              "ASPNETCORE_DETAILEDERRORS") = true) ∨
        equals_ignore_case "Development"
          (((⟨[]⟩ : OSEnvironment).GetEnvironmentVariableValue
            "ASPNETCORE_ENVIRONMENT").getD "") = true ∨
        equals_ignore_case "Development"
          (mapIndex [("ASPNETCORE_ENVIRONMENT", "Development")]
            "ASPNETCORE_ENVIRONMENT") = true ∨
        equals_ignore_case "Development"
          (((⟨[]⟩ : OSEnvironment).GetEnvironmentVariableValue
            "DOTNET_ENVIRONMENT").getD "") = true ∨
        equals_ignore_case "Development"
          (mapIndex [("ASPNETCORE_ENVIRONMENT", "Development")]
            "DOTNET_ENVIRONMENT") = true)) :=
  ⟨by decide,
    shim_C3_detailed_errors_iff
      ⟨some "inprocess", [], some "dotnet", none, some true, some "log.txt", some false,
        [("ASPNETCORE_ENVIRONMENT", "Development")]⟩
      ⟨[]⟩ ⟨.HOSTING_IN_PROCESS, "", "dotnet", "", true, "log.txt", false, true⟩ (by decide)⟩

/-- C4: on success, an in-process resolution always has an empty handler
version regardless of configured handler settings, while an out-of-process
resolution takes the value of the `"handlerVersion"` key from the handler
settings when present and the empty string when absent. -/
theorem shim_C4_handler_version (cs : ConfigurationSource) (env : OSEnvironment)
    (o : ShimOptions) (h : ShimOptions.construct cs env = .ok o) :
    (o.m_hostingModel = .HOSTING_IN_PROCESS → o.m_strHandlerVersion = "") ∧
    (o.m_hostingModel = .HOSTING_OUT_PROCESS →
      (∀ ver, find_element cs.handlerSettings CS_ASPNETCORE_HANDLER_VERSION = some ver →
        o.m_strHandlerVersion = ver) ∧
      (find_element cs.handlerSettings CS_ASPNETCORE_HANDLER_VERSION = none →
        o.m_strHandlerVersion = "")) := by
  rcases (construct_ok_iff cs env o).mp h with
    ⟨p, b, f, d, _, _, _, _, (⟨_, ho⟩ | ⟨_, _, ho⟩)⟩ <;> subst ho
  · exact ⟨fun hbad => APP_HOSTING_MODEL.noConfusion hbad,
      fun _ => ⟨fun ver hv => by simp [hv], fun hv => by simp [hv]⟩⟩
  · exact ⟨fun _ => rfl, fun hbad => APP_HOSTING_MODEL.noConfusion hbad⟩

/-- Witness for C4 at an out-of-process configuration carrying
`handlerVersion="2.1"` in its handler settings. -/
theorem shim_C4_witness :
    ShimOptions.construct
        ⟨none, [("handlerVersion", "2.1")], some "w3wp", none, some true, some "log.txt",
          some false, []⟩
        (⟨[]⟩ : OSEnvironment) =
      .ok ⟨.HOSTING_OUT_PROCESS, "2.1", "w3wp", "", true, "log.txt", false, false⟩ ∧
    (((⟨.HOSTING_OUT_PROCESS, "2.1", "w3wp", "", true, "log.txt", false, false⟩ :
          ShimOptions).m_hostingModel = .HOSTING_IN_PROCESS →
        (⟨.HOSTING_OUT_PROCESS, "2.1", "w3wp", "", true, "log.txt", false, false⟩ :
          ShimOptions).m_strHandlerVersion = "") ∧
      ((⟨.HOSTING_OUT_PROCESS, "2.1", "w3wp", "", true, "log.txt", false, false⟩ :
          ShimOptions).m_hostingModel = .HOSTING_OUT_PROCESS →
        (∀ ver, find_element [("handlerVersion", "2.1")] CS_ASPNETCORE_HANDLER_VERSION =
            some ver →
          (⟨.HOSTING_OUT_PROCESS, "2.1", "w3wp", "", true, "log.txt", false, false⟩ :
            ShimOptions).m_strHandlerVersion = ver) ∧
        (find_element [("handlerVersion", "2.1")] CS_ASPNETCORE_HANDLER_VERSION = none →
          (⟨.HOSTING_OUT_PROCESS, "2.1", "w3wp", "", true, "log.txt", false, false⟩ :
            ShimOptions).m_strHandlerVersion = ""))) :=
  ⟨by decide,
    shim_C4_handler_version
      ⟨none, [("handlerVersion", "2.1")], some "w3wp", none, some true, some "log.txt",
        some false, []⟩
      ⟨[]⟩ ⟨.HOSTING_OUT_PROCESS, "2.1", "w3wp", "", true, "log.txt", false, false⟩ (by decide)⟩

/-- C5: with a valid hosting model, a missing `processPath` makes
construction fail with a `ConfigurationLoadException`, and on success the
resolved process path is the configured string verbatim. -/
theorem shim_C5_process_path (cs : ConfigurationSource) (env : OSEnvironment)
    (hvalid : HostingModelValid cs) :
    (cs.processPath = none → ∃ e, ShimOptions.construct cs env = .error e) ∧
    (∀ o, ShimOptions.construct cs env = .ok o → cs.processPath = some o.m_strProcessPath) := by
  constructor
  · intro hp
    by_cases hc : ((cs.hostingModel.getD "").isEmpty ||
        equals_ignore_case (cs.hostingModel.getD "")
          CS_ASPNETCORE_HOSTING_MODEL_OUTOFPROCESS) = true
    · have herr : ShimOptions.construct cs env = .error (missingKeyError "processPath") := by
        simp [ShimOptions.construct, hc, hp]
      exact ⟨_, herr⟩
    · have hc' := Bool.eq_false_iff.mpr hc
      have hin := valid_in_of_not_out hvalid hc'
      have herr : ShimOptions.construct cs env = .error (missingKeyError "processPath") := by
        simp [ShimOptions.construct, hc', hin, hp]
      exact ⟨_, herr⟩
  · intro o h
    rcases (construct_ok_iff cs env o).mp h with
      ⟨p, b, f, d, hp, _, _, _, (⟨_, ho⟩ | ⟨_, _, ho⟩)⟩ <;> subst ho <;> exact hp

/-- Witness for C5 at a configuration with a valid (defaulted) hosting
model and no `processPath`. -/
theorem shim_C5_witness :
    HostingModelValid (⟨none, [], none, none, none, none, none, []⟩ : ConfigurationSource) ∧
    (((⟨none, [], none, none, none, none, none, []⟩ :
          ConfigurationSource).processPath = none →
        ∃ e, ShimOptions.construct
          (⟨none, [], none, none, none, none, none, []⟩ : ConfigurationSource)
          (⟨[]⟩ : OSEnvironment) = .error e) ∧
      (∀ o, ShimOptions.construct
          (⟨none, [], none, none, none, none, none, []⟩ : ConfigurationSource)
          (⟨[]⟩ : OSEnvironment) = .ok o →
        (⟨none, [], none, none, none, none, none, []⟩ :
          ConfigurationSource).processPath = some o.m_strProcessPath)) :=
  ⟨Or.inl rfl,
    shim_C5_process_path ⟨none, [], none, none, none, none, none, []⟩ ⟨[]⟩ (Or.inl rfl)⟩

/-- C6: on success, a missing `arguments` key resolves to the fixed
built-in default argument string and a present one is echoed verbatim. -/
theorem shim_C6_arguments_default (cs : ConfigurationSource) (env : OSEnvironment)
    (o : ShimOptions) (h : ShimOptions.construct cs env = .ok o) :
    (cs.arguments = none → o.m_strArguments = CS_ASPNETCORE_PROCESS_ARGUMENTS_DEFAULT) ∧
    (∀ a, cs.arguments = some a → o.m_strArguments = a) := by
  rcases (construct_ok_iff cs env o).mp h with
    ⟨p, b, f, d, _, _, _, _, (⟨_, ho⟩ | ⟨_, _, ho⟩)⟩ <;> subst ho <;>
    exact ⟨fun ha => by simp [ha], fun a ha => by simp [ha]⟩

/-- Witness for C6 at a configuration without an `arguments` key. -/
theorem shim_C6_witness :
    ShimOptions.construct
        ⟨none, [], some "dotnet", none, some true, some "log.txt", some false, []⟩
        (⟨[]⟩ : OSEnvironment) =
      .ok ⟨.HOSTING_OUT_PROCESS, "", "dotnet", "", true, "log.txt", false, false⟩ ∧
    (((⟨none, [], some "dotnet", none, some true, some "log.txt", some false, []⟩ :
          ConfigurationSource).arguments = none →
        (⟨.HOSTING_OUT_PROCESS, "", "dotnet", "", true, "log.txt", false, false⟩ :
          ShimOptions).m_strArguments = CS_ASPNETCORE_PROCESS_ARGUMENTS_DEFAULT) ∧
      (∀ a, (⟨none, [], some "dotnet", none, some true, some "log.txt", some false, []⟩ :
          ConfigurationSource).arguments = some a →
        (⟨.HOSTING_OUT_PROCESS, "", "dotnet", "", true, "log.txt", false, false⟩ :
          ShimOptions).m_strArguments = a)) :=
  ⟨by decide,
    shim_C6_arguments_default
      ⟨none, [], some "dotnet", none, some true, some "log.txt", some false, []⟩
      ⟨[]⟩ ⟨.HOSTING_OUT_PROCESS, "", "dotnet", "", true, "log.txt", false, false⟩ (by decide)⟩

/-- C7: when the hosting model is valid and the four required keys are
present, construction succeeds — the handler-version step and the
detailed-errors derivation can never fail. -/
theorem shim_C7_only_required_fail (cs : ConfigurationSource) (env : OSEnvironment)
    (hvalid : HostingModelValid cs)
    (hp : cs.processPath.isSome = true) (hb : cs.stdoutLogEnabled.isSome = true)
    (hf : cs.stdoutLogFile.isSome = true) (hd : cs.disableStartupErrorPage.isSome = true) :
    ∃ o, ShimOptions.construct cs env = .ok o := by
  obtain ⟨p, hp⟩ := Option.isSome_iff_exists.mp hp
  obtain ⟨b, hb⟩ := Option.isSome_iff_exists.mp hb
  obtain ⟨f, hf⟩ := Option.isSome_iff_exists.mp hf
  obtain ⟨d, hd⟩ := Option.isSome_iff_exists.mp hd
  by_cases hc : ((cs.hostingModel.getD "").isEmpty ||
      equals_ignore_case (cs.hostingModel.getD "")
        CS_ASPNETCORE_HOSTING_MODEL_OUTOFPROCESS) = true
  · exact ⟨_, (construct_ok_iff cs env _).mpr
      ⟨p, b, f, d, hp, hb, hf, hd, Or.inl ⟨hc, rfl⟩⟩⟩
  · have hc' := Bool.eq_false_iff.mpr hc
    exact ⟨_, (construct_ok_iff cs env _).mpr
      ⟨p, b, f, d, hp, hb, hf, hd, Or.inr ⟨hc', valid_in_of_not_out hvalid hc', rfl⟩⟩⟩

/-- Witness for C7: required keys present, handler settings and environment
maps absent, construction still succeeds. -/
theorem shim_C7_witness :
    (HostingModelValid
        (⟨some "OutOfProcess", [], some "w3wp", none, some false, some "f", some true, []⟩ :
          ConfigurationSource) ∧
      (⟨some "OutOfProcess", [], some "w3wp", none, some false, some "f", some true, []⟩ :
        ConfigurationSource).processPath.isSome = true ∧
      (⟨some "OutOfProcess", [], some "w3wp", none, some false, some "f", some true, []⟩ :
        ConfigurationSource).stdoutLogEnabled.isSome = true ∧
      (⟨some "OutOfProcess", [], some "w3wp", none, some false, some "f", some true, []⟩ :
        ConfigurationSource).stdoutLogFile.isSome = true ∧
      (⟨some "OutOfProcess", [], some "w3wp", none, some false, some "f", some true, []⟩ :
        ConfigurationSource).disableStartupErrorPage.isSome = true) ∧
    ∃ o, ShimOptions.construct
        (⟨some "OutOfProcess", [], some "w3wp", none, some false, some "f", some true, []⟩ :
          ConfigurationSource)
        (⟨[]⟩ : OSEnvironment) = .ok o :=
  ⟨⟨Or.inr (Or.inl (by decide)), by decide, by decide, by decide, by decide⟩,
    shim_C7_only_required_fail
      ⟨some "OutOfProcess", [], some "w3wp", none, some false, some "f", some true, []⟩
      ⟨[]⟩ (Or.inr (Or.inl (by decide))) (by decide) (by decide) (by decide) (by decide)⟩

/-- C8: construction is atomic — it either returns a fully resolved options
value whose hosting model is never `HOSTING_UNKNOWN`, or it fails with a
`ConfigurationLoadException`. -/
theorem shim_C8_atomic (cs : ConfigurationSource) (env : OSEnvironment) :
    (∃ o, ShimOptions.construct cs env = .ok o ∧ o.m_hostingModel ≠ .HOSTING_UNKNOWN) ∨
    (∃ e, ShimOptions.construct cs env = .error e) := by
  rcases hres : ShimOptions.construct cs env with e | o
  · exact Or.inr ⟨e, rfl⟩
  · refine Or.inl ⟨o, rfl, ?_⟩
    rcases (construct_ok_iff cs env o).mp hres with
      ⟨p, b, f, d, _, _, _, _, (⟨_, ho⟩ | ⟨_, _, ho⟩)⟩ <;> subst ho <;>
      exact fun hbad => APP_HOSTING_MODEL.noConfusion hbad

/-- Changing a detailed-errors source either not at all or to a matching
value preserves a true detailed-errors check. -/
theorem eic_pair_mono {v v' : String}
    (h : v' = v ∨ (equals_ignore_case "1" v' || equals_ignore_case "true" v') = true)
    (hv : (equals_ignore_case "1" v || equals_ignore_case "true" v) = true) :
    (equals_ignore_case "1" v' || equals_ignore_case "true" v') = true := by
  rcases h with heq | htrue
  · rw [heq]
    exact hv
  · exact htrue

/-- Changing an environment-name source either not at all or to a matching
value preserves a true `"Development"` check. -/
theorem eic_dev_mono {v v' : String}
    (h : v' = v ∨ equals_ignore_case "Development" v' = true)
    (hv : equals_ignore_case "Development" v = true) :
    equals_ignore_case "Development" v' = true := by
  rcases h with heq | htrue
  · rw [heq]
    exact hv
  · exact htrue

/-- The Step-5 derivation is monotone in the six sources. -/
theorem showDetailedErrorsOf_mono (cs cs' : ConfigurationSource) (env env' : OSEnvironment)
    (hde : (env'.GetEnvironmentVariableValue "ASPNETCORE_DETAILEDERRORS").getD "" =
        (env.GetEnvironmentVariableValue "ASPNETCORE_DETAILEDERRORS").getD "" ∨
      (equals_ignore_case "1"
          ((env'.GetEnvironmentVariableValue "ASPNETCORE_DETAILEDERRORS").getD "") ||
        equals_ignore_case "true"
          ((env'.GetEnvironmentVariableValue "ASPNETCORE_DETAILEDERRORS").getD "")) = true)
    (hdeMap : mapIndex cs'.environmentVariables "ASPNETCORE_DETAILEDERRORS" =
        mapIndex cs.environmentVariables "ASPNETCORE_DETAILEDERRORS" ∨
      (equals_ignore_case "1" (mapIndex cs'.environmentVariables "ASPNETCORE_DETAILEDERRORS") ||
        equals_ignore_case "true"
          (mapIndex cs'.environmentVariables "ASPNETCORE_DETAILEDERRORS")) = true)
    (hae : (env'.GetEnvironmentVariableValue "ASPNETCORE_ENVIRONMENT").getD "" =
        (env.GetEnvironmentVariableValue "ASPNETCORE_ENVIRONMENT").getD "" ∨
      equals_ignore_case "Development"
        ((env'.GetEnvironmentVariableValue "ASPNETCORE_ENVIRONMENT").getD "") = true)
    (haeMap : mapIndex cs'.environmentVariables "ASPNETCORE_ENVIRONMENT" =
        mapIndex cs.environmentVariables "ASPNETCORE_ENVIRONMENT" ∨
      equals_ignore_case "Development"
        (mapIndex cs'.environmentVariables "ASPNETCORE_ENVIRONMENT") = true)
    (hdn : (env'.GetEnvironmentVariableValue "DOTNET_ENVIRONMENT").getD "" =
        (env.GetEnvironmentVariableValue "DOTNET_ENVIRONMENT").getD "" ∨
      equals_ignore_case "Development"
        ((env'.GetEnvironmentVariableValue "DOTNET_ENVIRONMENT").getD "") = true)
    (hdnMap : mapIndex cs'.environmentVariables "DOTNET_ENVIRONMENT" =
        mapIndex cs.environmentVariables "DOTNET_ENVIRONMENT" ∨
      equals_ignore_case "Development"
        (mapIndex cs'.environmentVariables "DOTNET_ENVIRONMENT") = true)
    (h : showDetailedErrorsOf cs env = true) : showDetailedErrorsOf cs' env' = true := by
  have i1 := eic_pair_mono hde
  have i2 := eic_pair_mono hdeMap
  have i3 := eic_dev_mono hae
  have i4 := eic_dev_mono haeMap
  have i5 := eic_dev_mono hdn
  have i6 := eic_dev_mono hdnMap
  simp only [Bool.or_eq_true] at i1 i2
  simp only [showDetailedErrorsOf, Bool.or_eq_true] at h ⊢
  rcases h with (((hA1 | hA2) | (hB1 | hB2)) | (hC1 | hC2)) | (hD1 | hD2)
  · exact Or.inl (Or.inl (Or.inl (i1 (Or.inl hA1))))
  · exact Or.inl (Or.inl (Or.inl (i1 (Or.inr hA2))))
  · exact Or.inl (Or.inl (Or.inr (i2 (Or.inl hB1))))
  · exact Or.inl (Or.inl (Or.inr (i2 (Or.inr hB2))))
  · exact Or.inl (Or.inr (Or.inl (i3 hC1)))
  · exact Or.inl (Or.inr (Or.inr (i4 hC2)))
  · exact Or.inr (Or.inl (i5 hD1))
  · exact Or.inr (Or.inr (i6 hD2))

/-- C9: the detailed-errors derivation is purely additive — changing any of
the six environment sources from a non-matching to a matching value (or
leaving it unchanged), with all other configuration fields fixed, keeps
construction succeeding and never turns `showDetailedErrors` from true to
false. -/
theorem shim_C9_monotone_additive (cs cs' : ConfigurationSource) (env env' : OSEnvironment)
    (hfields : cs'.hostingModel = cs.hostingModel ∧ cs'.handlerSettings = cs.handlerSettings ∧
      cs'.processPath = cs.processPath ∧ cs'.arguments = cs.arguments ∧
      cs'.stdoutLogEnabled = cs.stdoutLogEnabled ∧ cs'.stdoutLogFile = cs.stdoutLogFile ∧
      cs'.disableStartupErrorPage = cs.disableStartupErrorPage)
    (hde : (env'.GetEnvironmentVariableValue "ASPNETCORE_DETAILEDERRORS").getD "" =
        (env.GetEnvironmentVariableValue "ASPNETCORE_DETAILEDERRORS").getD "" ∨
      (equals_ignore_case "1"
          ((env'.GetEnvironmentVariableValue "ASPNETCORE_DETAILEDERRORS").getD "") ||
        equals_ignore_case "true"
          ((env'.GetEnvironmentVariableValue "ASPNETCORE_DETAILEDERRORS").getD "")) = true)
    (hdeMap : mapIndex cs'.environmentVariables "ASPNETCORE_DETAILEDERRORS" =
        mapIndex cs.environmentVariables "ASPNETCORE_DETAILEDERRORS" ∨
      (equals_ignore_case "1" (mapIndex cs'.environmentVariables "ASPNETCORE_DETAILEDERRORS") ||
        equals_ignore_case "true"
          (mapIndex cs'.environmentVariables "ASPNETCORE_DETAILEDERRORS")) = true)
    (hae : (env'.GetEnvironmentVariableValue "ASPNETCORE_ENVIRONMENT").getD "" =
        (env.GetEnvironmentVariableValue "ASPNETCORE_ENVIRONMENT").getD "" ∨
      equals_ignore_case "Development"
        ((env'.GetEnvironmentVariableValue "ASPNETCORE_ENVIRONMENT").getD "") = true)
    (haeMap : mapIndex cs'.environmentVariables "ASPNETCORE_ENVIRONMENT" =
        mapIndex cs.environmentVariables "ASPNETCORE_ENVIRONMENT" ∨
      equals_ignore_case "Development"
        (mapIndex cs'.environmentVariables "ASPNETCORE_ENVIRONMENT") = true)
    (hdn : (env'.GetEnvironmentVariableValue "DOTNET_ENVIRONMENT").getD "" =
        (env.GetEnvironmentVariableValue "DOTNET_ENVIRONMENT").getD "" ∨
      equals_ignore_case "Development"
        ((env'.GetEnvironmentVariableValue "DOTNET_ENVIRONMENT").getD "") = true)
    (hdnMap : mapIndex cs'.environmentVariables "DOTNET_ENVIRONMENT" =
        mapIndex cs.environmentVariables "DOTNET_ENVIRONMENT" ∨
      equals_ignore_case "Development"
        (mapIndex cs'.environmentVariables "DOTNET_ENVIRONMENT") = true)
    (o : ShimOptions) (h : ShimOptions.construct cs env = .ok o) :
    ∃ o', ShimOptions.construct cs' env' = .ok o' ∧
      (o.m_fShowDetailedErrors = true → o'.m_fShowDetailedErrors = true) := by
  obtain ⟨h1, h2, h3, h4, h5, h6, h7⟩ := hfields
  rcases (construct_ok_iff cs env o).mp h with
    ⟨p, b, f, d, hp, hb, hf, hd, (⟨hc, ho⟩ | ⟨hc1, hc2, ho⟩)⟩
  · refine ⟨_, (construct_ok_iff cs' env' _).mpr
      ⟨p, b, f, d, by rw [h3, hp], by rw [h5, hb], by rw [h6, hf], by rw [h7, hd],
        Or.inl ⟨by rw [h1]; exact hc, rfl⟩⟩, ?_⟩
    subst ho
    exact showDetailedErrorsOf_mono cs cs' env env' hde hdeMap hae haeMap hdn hdnMap
  · refine ⟨_, (construct_ok_iff cs' env' _).mpr
      ⟨p, b, f, d, by rw [h3, hp], by rw [h5, hb], by rw [h6, hf], by rw [h7, hd],
        Or.inr ⟨by rw [h1]; exact hc1, by rw [h1]; exact hc2, rfl⟩⟩, ?_⟩
    subst ho
    exact showDetailedErrorsOf_mono cs cs' env env' hde hdeMap hae haeMap hdn hdnMap

/-- Witness for C9: the OS variable `DOTNET_ENVIRONMENT` changes from
absent to `"Development"`; construction still succeeds and
`showDetailedErrors` does not fall from true to false. -/
theorem shim_C9_witness :
    ∃ o', ShimOptions.construct
        (⟨none, [], some "dotnet", none, some true, some "log.txt", some false, []⟩ :
          ConfigurationSource)
        (⟨[("DOTNET_ENVIRONMENT", "Development")]⟩ : OSEnvironment) = .ok o' ∧
      ((⟨.HOSTING_OUT_PROCESS, "", "dotnet", "", true, "log.txt", false, false⟩ :
          ShimOptions).m_fShowDetailedErrors = true →
        o'.m_fShowDetailedErrors = true) :=
  shim_C9_monotone_additive
    ⟨none, [], some "dotnet", none, some true, some "log.txt", some false, []⟩
    ⟨none, [], some "dotnet", none, some true, some "log.txt", some false, []⟩
    (⟨[]⟩ : OSEnvironment) (⟨[("DOTNET_ENVIRONMENT", "Development")]⟩ : OSEnvironment)
    ⟨rfl, rfl, rfl, rfl, rfl, rfl, rfl⟩
    (Or.inl rfl) (Or.inl rfl) (Or.inl rfl) (Or.inl rfl) (Or.inr (by decide)) (Or.inl rfl)
    ⟨.HOSTING_OUT_PROCESS, "", "dotnet", "", true, "log.txt", false, false⟩ (by decide)

/-- C10: an invalid hosting-model string makes construction fail with the
unknown-hosting-model error whatever the rest of the configuration holds —
in particular even when every other required key is absent. -/
theorem shim_C10_error_precedence (cs : ConfigurationSource) (env : OSEnvironment)
    (hne : cs.hostingModel.getD "" ≠ "")
    (hout : equals_ignore_case (cs.hostingModel.getD "")
      CS_ASPNETCORE_HOSTING_MODEL_OUTOFPROCESS = false)
    (hin : equals_ignore_case (cs.hostingModel.getD "")
      CS_ASPNETCORE_HOSTING_MODEL_INPROCESS = false) :
    ShimOptions.construct cs env =
      .error ⟨unknownHostingModelMessage (cs.hostingModel.getD "")⟩ :=
  construct_unknown_model cs env hne hout hin

/-- Witness for C10: hosting model `"bar"` with every other key absent
still yields the unknown-hosting-model error. -/
theorem shim_C10_witness :
    ((⟨some "bar", [], none, none, none, none, none, []⟩ :
        ConfigurationSource).hostingModel.getD "" ≠ "" ∧
      equals_ignore_case
        ((⟨some "bar", [], none, none, none, none, none, []⟩ :
            ConfigurationSource).hostingModel.getD "")
        CS_ASPNETCORE_HOSTING_MODEL_OUTOFPROCESS = false ∧
      equals_ignore_case
        ((⟨some "bar", [], none, none, none, none, none, []⟩ :
            ConfigurationSource).hostingModel.getD "")
        CS_ASPNETCORE_HOSTING_MODEL_INPROCESS = false) ∧
    ShimOptions.construct
        (⟨some "bar", [], none, none, none, none, none, []⟩ : ConfigurationSource)
        (⟨[]⟩ : OSEnvironment) =
      .error ⟨unknownHostingModelMessage
        ((⟨some "bar", [], none, none, none, none, none, []⟩ :
            ConfigurationSource).hostingModel.getD "")⟩ :=
  ⟨⟨by decide, by decide, by decide⟩,
    shim_C10_error_precedence ⟨some "bar", [], none, none, none, none, none, []⟩ ⟨[]⟩
      (by decide) (by decide) (by decide)⟩

end AspNetCore
